import Mathlib

/-!
Verification of the Alligator_Alcatraz repository: a shallow embedding of
the track-termination classifier (`track_termination_analysis.py`), the
live-monitor status/alert logic (`monitor_dade_collier.py`), and the
detection-log save path, together with proofs of the specification claims.

Numeric fields (distances in degrees, altitudes in meters) are modelled as
exact rationals; the Python source computes on floats, and every threshold
comparison and arithmetic operation used by the programs is exact on the
decimal values involved.
-/

/-- Confidence level attached to a classified event
(`'HIGH'` / `'MEDIUM'` strings in the source). -/
inductive Confidence
  | HIGH
  | MEDIUM
  deriving DecidableEq, Repr

/-- One entry of the per-day `track` list built in
`track_termination_analysis.py` (lines 48-56): the dict
`{'time': ..., 'distance': ..., 'altitude': ..., 'callsign': ...}`. -/
structure TrackPoint where
  time : String
  distance : ℚ
  altitude : ℚ
  callsign : String
  deriving DecidableEq, Repr

/-- A potential-landing record as appended to `potential_landings`
(source lines 89-99).  The `icao` and `date` fields of the source record
are the group key and are carried outside the classifier; the remaining
fields are computed from the track and are modelled here. -/
structure LandingEvent where
  callsign : String
  time : String
  final_altitude : ℚ
  final_distance_km : ℚ
  altitude_drop : ℚ
  detections : ℕ
  confidence : Confidence
  deriving DecidableEq, Repr

/-- A potential-takeoff record as appended to `potential_takeoffs`
(source lines 111-122). -/
structure TakeoffEvent where
  callsign : String
  time : String
  initial_altitude : ℚ
  initial_distance_km : ℚ
  altitude_gain : ℚ
  detections : ℕ
  confidence : Confidence
  deriving DecidableEq, Repr

/-- The `continues_past` scan (source lines 81-87), from the second element
on: `prev` is `track[i-1]` and the head of the remaining list is `track[i]`;
the loop sets the flag when `track[i-1]['distance'] < 0.02` and
`point['distance'] > track[i-1]['distance']`. -/
def continuesPastFrom : TrackPoint → List TrackPoint → Bool
  | _, [] => false
  | prev, p :: rest =>
    if prev.distance < 2/100 ∧ p.distance > prev.distance then true
    else continuesPastFrom p rest

/-- The full `continues_past` loop `for i, point in enumerate(track): if i > 0: ...`
(source lines 82-87). -/
def continues_past : List TrackPoint → Bool
  | [] => false
  | p :: rest => continuesPastFrom p rest

/-- The classifier body for one filtered track (source lines 64-122):
landing criteria, the `continues_past` exclusion, the landing record,
takeoff criteria and the takeoff record.  The source indexes `track[0]`
and `track[-1]` only on tracks of length at least 3 (guarded at lines
42 and 58-59); on `[]` this model returns no events. -/
def analyzeTrack (track : List TrackPoint) : Option LandingEvent × Option TakeoffEvent :=
  match track with
  | [] => (none, none)
  | firstP :: rest =>
    let lastP := rest.getLastD firstP
    let landing : Option LandingEvent :=
      if firstP.distance > lastP.distance ∧ firstP.altitude > lastP.altitude ∧
          lastP.distance < 2/100 ∧ lastP.altitude < 500 then
        if continues_past (firstP :: rest) = true then none
        else some
          { callsign := firstP.callsign
            time := lastP.time
            final_altitude := lastP.altitude
            final_distance_km := lastP.distance * 111
            altitude_drop := firstP.altitude - lastP.altitude
            detections := (firstP :: rest).length
            confidence :=
              if lastP.altitude < 500 ∧ lastP.distance < 1/100 then Confidence.HIGH
              else Confidence.MEDIUM }
      else none
    let takeoff : Option TakeoffEvent :=
      if lastP.distance > firstP.distance ∧ lastP.altitude > firstP.altitude ∧
          firstP.distance < 2/100 ∧ firstP.altitude < 500 then
        some
          { callsign := firstP.callsign
            time := firstP.time
            initial_altitude := firstP.altitude
            initial_distance_km := firstP.distance * 111
            altitude_gain := lastP.altitude - firstP.altitude
            detections := (firstP :: rest).length
            confidence :=
              if firstP.altitude < 500 ∧ firstP.distance < 1/100 then Confidence.HIGH
              else Confidence.MEDIUM }
      else none
    (landing, takeoff)

/-- The spec's wording of the exclusion pass: some adjacent pair
`(track[i-1], track[i])` with `i ≥ 1` has `track[i-1].distance < 0.02`
and `track[i].distance` strictly greater. -/
def specContinuesPast (track : List TrackPoint) : Prop :=
  ∃ i p q, 1 ≤ i ∧ track[i-1]? = some p ∧ track[i]? = some q ∧
    p.distance < 2/100 ∧ q.distance > p.distance

lemma getLastD_of_getLast? {α : Type} :
    ∀ (rest : List α) (f l : α), (f :: rest).getLast? = some l → rest.getLastD f = l
  | [], f, l, h => by
      simpa using h
  | b :: bs, f, l, h => by
      rw [List.getLast?_cons_cons] at h
      rw [List.getLastD_cons]
      exact getLastD_of_getLast? bs b l h

lemma continuesPastFrom_iff (prev : TrackPoint) (rest : List TrackPoint) :
    continuesPastFrom prev rest = true ↔
      ∃ j p q, (prev :: rest)[j]? = some p ∧ (prev :: rest)[j+1]? = some q ∧
        p.distance < 2/100 ∧ q.distance > p.distance := by
  induction rest generalizing prev with
  | nil =>
    simp [continuesPastFrom]
  | cons b bs ih =>
    rw [continuesPastFrom]
    by_cases hc : prev.distance < 2/100 ∧ b.distance > prev.distance
    · rw [if_pos hc]
      simp only [true_iff]
      exact ⟨0, prev, b, rfl, by simp, hc.1, hc.2⟩
    · rw [if_neg hc, ih b]
      constructor
      · rintro ⟨j, p, q, h1, h2, h3, h4⟩
        exact ⟨j + 1, p, q, by simpa using h1, by simpa using h2, h3, h4⟩
      · rintro ⟨j, p, q, h1, h2, h3, h4⟩
        cases j with
        | zero =>
          simp only [List.getElem?_cons_zero, Option.some.injEq] at h1
          simp only [List.getElem?_cons_succ, List.getElem?_cons_zero,
            Option.some.injEq] at h2
          exact absurd ⟨h1 ▸ h3, h1 ▸ h2 ▸ h4⟩ hc
        | succ j =>
          exact ⟨j, p, q, by simpa using h1, by simpa using h2, h3, h4⟩

lemma continues_past_iff_spec (track : List TrackPoint) :
    continues_past track = true ↔ specContinuesPast track := by
  cases track with
  | nil =>
    simp only [continues_past, specContinuesPast]
    constructor
    · intro h
      exact absurd h (by simp)
    · rintro ⟨i, p, q, _, _, h2, _⟩
      simp at h2
  | cons a rest =>
    rw [continues_past, continuesPastFrom_iff]
    unfold specContinuesPast
    constructor
    · rintro ⟨j, p, q, h1, h2, h3, h4⟩
      exact ⟨j + 1, p, q, by omega, by simpa using h1, h2, h3, h4⟩
    · rintro ⟨i, p, q, hi, h1, h2, h3, h4⟩
      obtain ⟨j, rfl⟩ : ∃ j, i = j + 1 := ⟨i - 1, by omega⟩
      exact ⟨j, p, q, by simpa using h1, h2, h3, h4⟩

lemma analyzeTrack_eq (f l : TrackPoint) (rest : List TrackPoint)
    (hl : (f :: rest).getLast? = some l) :
    analyzeTrack (f :: rest) =
      ((if f.distance > l.distance ∧ f.altitude > l.altitude ∧
            l.distance < 2/100 ∧ l.altitude < 500 then
          if continues_past (f :: rest) = true then none
          else some
            { callsign := f.callsign
              time := l.time
              final_altitude := l.altitude
              final_distance_km := l.distance * 111
              altitude_drop := f.altitude - l.altitude
              detections := (f :: rest).length
              confidence :=
                if l.altitude < 500 ∧ l.distance < 1/100 then Confidence.HIGH
                else Confidence.MEDIUM }
        else none),
       (if l.distance > f.distance ∧ l.altitude > f.altitude ∧
            f.distance < 2/100 ∧ f.altitude < 500 then
          some
            { callsign := f.callsign
              time := f.time
              initial_altitude := f.altitude
              initial_distance_km := f.distance * 111
              altitude_gain := l.altitude - f.altitude
              detections := (f :: rest).length
              confidence :=
                if f.altitude < 500 ∧ f.distance < 1/100 then Confidence.HIGH
                else Confidence.MEDIUM }
        else none)) := by
  have hld : rest.getLastD f = l := getLastD_of_getLast? rest f l hl
  simp only [analyzeTrack, hld]

lemma analyzeTrack_fst (f l : TrackPoint) (rest : List TrackPoint)
    (hl : (f :: rest).getLast? = some l) :
    (analyzeTrack (f :: rest)).1 =
      (if f.distance > l.distance ∧ f.altitude > l.altitude ∧
            l.distance < 2/100 ∧ l.altitude < 500 then
          if continues_past (f :: rest) = true then none
          else some
            { callsign := f.callsign
              time := l.time
              final_altitude := l.altitude
              final_distance_km := l.distance * 111
              altitude_drop := f.altitude - l.altitude
              detections := (f :: rest).length
              confidence :=
                if l.altitude < 500 ∧ l.distance < 1/100 then Confidence.HIGH
                else Confidence.MEDIUM }
        else none) := by
  rw [analyzeTrack_eq f l rest hl]

lemma analyzeTrack_snd (f l : TrackPoint) (rest : List TrackPoint)
    (hl : (f :: rest).getLast? = some l) :
    (analyzeTrack (f :: rest)).2 =
      (if l.distance > f.distance ∧ l.altitude > f.altitude ∧
            f.distance < 2/100 ∧ f.altitude < 500 then
          some
            { callsign := f.callsign
              time := f.time
              initial_altitude := f.altitude
              initial_distance_km := f.distance * 111
              altitude_gain := l.altitude - f.altitude
              detections := (f :: rest).length
              confidence :=
                if f.altitude < 500 ∧ f.distance < 1/100 then Confidence.HIGH
                else Confidence.MEDIUM }
        else none) := by
  rw [analyzeTrack_eq f l rest hl]

/-- First point of the spec's end-to-end example 1. -/
def p11 : TrackPoint := { time := "t1", distance := 5/100, altitude := 900, callsign := "N123" }

/-- Second point of the spec's end-to-end example 1. -/
def p12 : TrackPoint := { time := "t2", distance := 3/100, altitude := 400, callsign := "N123" }

/-- Third point of the spec's end-to-end example 1. -/
def p13 : TrackPoint := { time := "t3", distance := 15/1000, altitude := 200, callsign := "N123" }

/-- The spec's end-to-end example 1: a MEDIUM-confidence landing. -/
def exTrack1 : List TrackPoint := [p11, p12, p13]

/-- First point of the spec's end-to-end example 2. -/
def p21 : TrackPoint := { time := "t1", distance := 5/1000, altitude := 100, callsign := "N456" }

/-- Second point of the spec's end-to-end example 2. -/
def p22 : TrackPoint := { time := "t2", distance := 1/100, altitude := 600, callsign := "N456" }

/-- Third point of the spec's end-to-end example 2. -/
def p23 : TrackPoint := { time := "t3", distance := 5/100, altitude := 1200, callsign := "N456" }

/-- The spec's end-to-end example 2: a HIGH-confidence takeoff. -/
def exTrack2 : List TrackPoint := [p21, p22, p23]

/-- First point of the spec's end-to-end example 3. -/
def p31 : TrackPoint := { time := "t1", distance := 5/100, altitude := 900, callsign := "N789" }

/-- Second point of the spec's end-to-end example 3. -/
def p32 : TrackPoint := { time := "t2", distance := 1/100, altitude := 200, callsign := "N789" }

/-- Third point of the spec's end-to-end example 3. -/
def p33 : TrackPoint := { time := "t3", distance := 3/100, altitude := 180, callsign := "N789" }

/-- The spec's end-to-end example 3: enters the near-zone and recedes. -/
def exTrack3 : List TrackPoint := [p31, p32, p33]

/-- C1: for every filtered track with at least 3 altitude-bearing points, the
classifier emits a landing event if and only if all four of approaching
(`first.distance > last.distance`), descending (`first.altitude > last.altitude`),
ends_near (`last.distance < 0.02`), and low_at_end (`last.altitude < 500`) hold
and `continues_past` is false, where `continues_past` holds exactly when some
adjacent pair `(track[i-1], track[i])` with `i ≥ 1` has
`track[i-1].distance < 0.02` and `track[i].distance` strictly greater. -/
theorem landing_event_iff (track : List TrackPoint) (f l : TrackPoint)
    (h3 : 3 ≤ track.length) (hf : track.head? = some f)
    (hl : track.getLast? = some l) :
    (analyzeTrack track).1.isSome = true ↔
      (f.distance > l.distance ∧ f.altitude > l.altitude ∧ l.distance < 2/100 ∧
        l.altitude < 500 ∧ ¬ specContinuesPast track) := by
  obtain ⟨rest, rfl⟩ := List.head?_eq_some_iff.mp hf
  have hsp := continues_past_iff_spec (f :: rest)
  rw [analyzeTrack_fst f l rest hl]
  by_cases hcond : f.distance > l.distance ∧ f.altitude > l.altitude ∧
      l.distance < 2/100 ∧ l.altitude < 500
  · by_cases hcp : continues_past (f :: rest) = true
    · simp only [if_pos hcond, if_pos hcp, Option.isSome_none,
        Bool.false_eq_true, false_iff]
      intro hall
      exact hall.2.2.2.2 (hsp.mp hcp)
    · simp only [if_pos hcond, if_neg hcp, Option.isSome_some, true_iff]
      exact ⟨hcond.1, hcond.2.1, hcond.2.2.1, hcond.2.2.2,
        fun hs => hcp (hsp.mpr hs)⟩
  · simp only [if_neg hcond, Option.isSome_none, Bool.false_eq_true, false_iff]
    intro hall
    exact hcond ⟨hall.1, hall.2.1, hall.2.2.1, hall.2.2.2.1⟩

/-- Witness for C1: the theorem applied to the spec's example-1 track. -/
theorem landing_event_iff_witness :
    (analyzeTrack exTrack1).1.isSome = true ↔
      (p11.distance > p13.distance ∧ p11.altitude > p13.altitude ∧
        p13.distance < 2/100 ∧ p13.altitude < 500 ∧ ¬ specContinuesPast exTrack1) :=
  landing_event_iff exTrack1 p11 p13 (by decide) rfl rfl

/-- The landing record that example-1 produces (spec example 1). -/
def exEvent1 : LandingEvent :=
  { callsign := "N123", time := "t3", final_altitude := 200,
    final_distance_km := 1665/1000, altitude_drop := 700, detections := 3,
    confidence := Confidence.MEDIUM }

/-- The takeoff record that example-2 produces (spec example 2). -/
def exEvent2 : TakeoffEvent :=
  { callsign := "N456", time := "t1", initial_altitude := 100,
    initial_distance_km := 555/1000, altitude_gain := 1100, detections := 3,
    confidence := Confidence.HIGH }

lemma exTrack1_fst : (analyzeTrack exTrack1).1 = some exEvent1 := by
  have hcp : continues_past (p11 :: [p12, p13]) = false := by
    simp only [continues_past, continuesPastFrom]
    norm_num [p11, p12, p13]
  show (analyzeTrack (p11 :: [p12, p13])).1 = some exEvent1
  rw [analyzeTrack_fst p11 p13 [p12, p13] rfl, hcp]
  norm_num [p11, p13, exEvent1]

lemma exTrack2_snd : (analyzeTrack exTrack2).2 = some exEvent2 := by
  show (analyzeTrack (p21 :: [p22, p23])).2 = some exEvent2
  rw [analyzeTrack_snd p21 p23 [p22, p23] rfl]
  norm_num [p21, p23, exEvent2]

/-- C2: for every filtered track with at least 3 altitude-bearing points, a
takeoff event is emitted if and only if all four of leaving
(`last.distance > first.distance`), climbing (`last.altitude > first.altitude`),
starts_near (`first.distance < 0.02`) and low_at_start (`first.altitude < 500`)
hold, with no `continues_past`-style exclusion pass; and the takeoff test is
independent of the landing test, so a track satisfying both sets of conditions
produces both events. -/
theorem takeoff_event_iff (track : List TrackPoint) (f l : TrackPoint)
    (h3 : 3 ≤ track.length) (hf : track.head? = some f)
    (hl : track.getLast? = some l) :
    ((analyzeTrack track).2.isSome = true ↔
      (l.distance > f.distance ∧ l.altitude > f.altitude ∧ f.distance < 2/100 ∧
        f.altitude < 500)) ∧
    ((f.distance > l.distance ∧ f.altitude > l.altitude ∧ l.distance < 2/100 ∧
        l.altitude < 500 ∧ ¬ specContinuesPast track ∧
        l.distance > f.distance ∧ l.altitude > f.altitude ∧ f.distance < 2/100 ∧
        f.altitude < 500) →
      ((analyzeTrack track).1.isSome = true ∧ (analyzeTrack track).2.isSome = true)) := by
  obtain ⟨rest, rfl⟩ := List.head?_eq_some_iff.mp hf
  constructor
  · rw [analyzeTrack_snd f l rest hl]
    by_cases hcond : l.distance > f.distance ∧ l.altitude > f.altitude ∧
        f.distance < 2/100 ∧ f.altitude < 500
    · simp only [if_pos hcond, Option.isSome_some, true_iff]
      exact hcond
    · simp only [if_neg hcond, Option.isSome_none, Bool.false_eq_true, false_iff]
      exact hcond
  · rintro ⟨h1, -, -, -, -, h6, -⟩
    exact absurd h6 (lt_asymm h1)

/-- Witness for C2: the theorem applied to the spec's example-2 track. -/
theorem takeoff_event_iff_witness :
    (((analyzeTrack exTrack2).2.isSome = true ↔
      (p23.distance > p21.distance ∧ p23.altitude > p21.altitude ∧
        p21.distance < 2/100 ∧ p21.altitude < 500)) ∧
    ((p21.distance > p23.distance ∧ p21.altitude > p23.altitude ∧
        p23.distance < 2/100 ∧ p23.altitude < 500 ∧ ¬ specContinuesPast exTrack2 ∧
        p23.distance > p21.distance ∧ p23.altitude > p21.altitude ∧
        p21.distance < 2/100 ∧ p21.altitude < 500) →
      ((analyzeTrack exTrack2).1.isSome = true ∧
        (analyzeTrack exTrack2).2.isSome = true))) :=
  takeoff_event_iff exTrack2 p21 p23 (by decide) rfl rfl

/-- C3: for every emitted event, confidence is HIGH exactly when the distance
at the relevant boundary point (last point for a landing, first point for a
takeoff) is below 0.01 degrees, and MEDIUM otherwise; the low-altitude conjunct
of the source's confidence expression is redundant on the emitting branch. -/
theorem confidence_high_iff (track : List TrackPoint) (f l : TrackPoint)
    (h3 : 3 ≤ track.length) (hf : track.head? = some f)
    (hl : track.getLast? = some l) :
    (∀ ev, (analyzeTrack track).1 = some ev →
      (ev.confidence = Confidence.HIGH ↔ l.distance < 1/100)) ∧
    (∀ tv, (analyzeTrack track).2 = some tv →
      (tv.confidence = Confidence.HIGH ↔ f.distance < 1/100)) := by
  obtain ⟨rest, rfl⟩ := List.head?_eq_some_iff.mp hf
  constructor
  · intro ev hev
    rw [analyzeTrack_fst f l rest hl] at hev
    by_cases hcond : f.distance > l.distance ∧ f.altitude > l.altitude ∧
        l.distance < 2/100 ∧ l.altitude < 500
    · by_cases hcp : continues_past (f :: rest) = true
      · rw [if_pos hcond, if_pos hcp] at hev
        exact absurd hev (by simp)
      · rw [if_pos hcond, if_neg hcp] at hev
        obtain rfl : _ = ev := Option.some.injEq _ _ ▸ hev
        by_cases hd : l.distance < 1/100
        · simp only [if_pos (And.intro hcond.2.2.2 hd)]
          exact iff_of_true trivial hd
        · simp only [if_neg (fun hh : l.altitude < 500 ∧ l.distance < 1/100 => hd hh.2)]
          exact iff_of_false (by simp) hd
    · rw [if_neg hcond] at hev
      exact absurd hev (by simp)
  · intro tv htv
    rw [analyzeTrack_snd f l rest hl] at htv
    by_cases hcond : l.distance > f.distance ∧ l.altitude > f.altitude ∧
        f.distance < 2/100 ∧ f.altitude < 500
    · rw [if_pos hcond] at htv
      obtain rfl : _ = tv := Option.some.injEq _ _ ▸ htv
      by_cases hd : f.distance < 1/100
      · simp only [if_pos (And.intro hcond.2.2.2 hd)]
        exact iff_of_true trivial hd
      · simp only [if_neg (fun hh : f.altitude < 500 ∧ f.distance < 1/100 => hd hh.2)]
        exact iff_of_false (by simp) hd
    · rw [if_neg hcond] at htv
      exact absurd htv (by simp)

/-- Witness for C3: the theorem applied to the spec's example-1 landing. -/
theorem confidence_high_iff_witness :
    exEvent1.confidence = Confidence.HIGH ↔ p13.distance < 1/100 :=
  (confidence_high_iff exTrack1 p11 p13 (by decide) rfl rfl).1 exEvent1 exTrack1_fst

/-- C6 counterexample: on the spec's example-3 track
`[(dist=0.05,alt=900),(dist=0.01,alt=200),(dist=0.03,alt=180)]` the four
primary landing boundary conditions do NOT all hold — `ends_near` fails,
since the final distance 0.03 is not below 0.02 — so the claim that the
boundary conditions alone would qualify the track is false. -/
theorem exTrack3_conditions_fail :
    ¬ (p31.distance > p33.distance ∧ p31.altitude > p33.altitude ∧
        p33.distance < 2/100 ∧ p33.altitude < 500) := by
  norm_num [p31, p33]

/-- C6 amended: the example-3 track produces no landing event, but the
suppression comes from the failed `ends_near` condition (its final distance
is not below 0.02), not from the `continues_past` exclusion — although the
`continues_past` condition does also hold on this track. -/
theorem exTrack3_no_landing :
    (analyzeTrack exTrack3).1 = none ∧ ¬ (p33.distance < 2/100) ∧
      continues_past exTrack3 = true := by
  refine ⟨?_, by norm_num [p33], ?_⟩
  · show (analyzeTrack (p31 :: [p32, p33])).1 = none
    rw [analyzeTrack_fst p31 p33 [p32, p33] rfl]
    norm_num [p31, p33]
  · simp only [exTrack3, continues_past, continuesPastFrom]
    norm_num [p31, p32, p33]

/-- C7: emitted event metrics are computed as: for a landing,
`final_altitude = last.altitude`, `final_distance_km = last.distance * 111`,
`altitude_drop = first.altitude - last.altitude`, `detections` = number of
retained points; for a takeoff, the symmetric initial-point metrics and
`altitude_gain = last.altitude - first.altitude`; and the example-1 track
yields a landing with confidence MEDIUM, `final_distance_km = 1.665`
(= 1665/1000) and `altitude_drop = 700`. -/
theorem event_metrics (track : List TrackPoint) (f l : TrackPoint)
    (h3 : 3 ≤ track.length) (hf : track.head? = some f)
    (hl : track.getLast? = some l) :
    (∀ ev, (analyzeTrack track).1 = some ev →
      (ev.final_altitude = l.altitude ∧ ev.final_distance_km = l.distance * 111 ∧
        ev.altitude_drop = f.altitude - l.altitude ∧ ev.detections = track.length)) ∧
    (∀ tv, (analyzeTrack track).2 = some tv →
      (tv.initial_altitude = f.altitude ∧ tv.initial_distance_km = f.distance * 111 ∧
        tv.altitude_gain = l.altitude - f.altitude ∧ tv.detections = track.length)) ∧
    ((analyzeTrack exTrack1).1 = some exEvent1 ∧
      exEvent1.confidence = Confidence.MEDIUM ∧
      exEvent1.final_distance_km = 1665/1000 ∧ exEvent1.altitude_drop = 700) := by
  obtain ⟨rest, rfl⟩ := List.head?_eq_some_iff.mp hf
  refine ⟨?_, ?_, exTrack1_fst, rfl, rfl, rfl⟩
  · intro ev hev
    rw [analyzeTrack_fst f l rest hl] at hev
    by_cases h1 : f.distance > l.distance ∧ f.altitude > l.altitude ∧
        l.distance < 2/100 ∧ l.altitude < 500
    · rw [if_pos h1] at hev
      by_cases h2 : continues_past (f :: rest) = true
      · rw [if_pos h2] at hev
        exact absurd hev (by simp)
      · rw [if_neg h2] at hev
        obtain rfl := (Option.some_inj.mp hev).symm
        exact ⟨rfl, rfl, rfl, rfl⟩
    · rw [if_neg h1] at hev
      exact absurd hev (by simp)
  · intro tv htv
    rw [analyzeTrack_snd f l rest hl] at htv
    by_cases h1 : l.distance > f.distance ∧ l.altitude > f.altitude ∧
        f.distance < 2/100 ∧ f.altitude < 500
    · rw [if_pos h1] at htv
      obtain rfl := (Option.some_inj.mp htv).symm
      exact ⟨rfl, rfl, rfl, rfl⟩
    · rw [if_neg h1] at htv
      exact absurd htv (by simp)

/-- Witness for C7: the metric formulas instantiated on the example-1 landing. -/
theorem event_metrics_witness :
    exEvent1.final_altitude = p13.altitude ∧
      exEvent1.final_distance_km = p13.distance * 111 ∧
      exEvent1.altitude_drop = p11.altitude - p13.altitude ∧
      exEvent1.detections = exTrack1.length :=
  (event_metrics exTrack1 p11 p13 (by decide) rfl rfl).1 exEvent1 exTrack1_fst

/-- C10: every emitted landing event satisfies `final_altitude < 500`,
`final_distance_km < 2.22` (= 111/50), `altitude_drop > 0` and
`detections ≥ 3`; every emitted takeoff event satisfies the symmetric
`initial_altitude < 500`, `initial_distance_km < 2.22`, `altitude_gain > 0`
and `detections ≥ 3`. -/
theorem event_invariants (track : List TrackPoint) (h3 : 3 ≤ track.length) :
    (∀ ev, (analyzeTrack track).1 = some ev →
      (ev.final_altitude < 500 ∧ ev.final_distance_km < 111/50 ∧
        0 < ev.altitude_drop ∧ 3 ≤ ev.detections)) ∧
    (∀ tv, (analyzeTrack track).2 = some tv →
      (tv.initial_altitude < 500 ∧ tv.initial_distance_km < 111/50 ∧
        0 < tv.altitude_gain ∧ 3 ≤ tv.detections)) := by
  cases track with
  | nil => simp at h3
  | cons f rest =>
    obtain ⟨l, hl⟩ : ∃ l, (f :: rest).getLast? = some l := by
      cases h : (f :: rest).getLast? with
      | none => simp [List.getLast?_eq_none_iff] at h
      | some x => exact ⟨x, rfl⟩
    constructor
    · intro ev hev
      rw [analyzeTrack_fst f l rest hl] at hev
      by_cases h1 : f.distance > l.distance ∧ f.altitude > l.altitude ∧
          l.distance < 2/100 ∧ l.altitude < 500
      · rw [if_pos h1] at hev
        by_cases h2 : continues_past (f :: rest) = true
        · rw [if_pos h2] at hev
          exact absurd hev (by simp)
        · rw [if_neg h2] at hev
          obtain rfl := (Option.some_inj.mp hev).symm
          refine ⟨h1.2.2.2, ?_, ?_, h3⟩
          · have := h1.2.2.1
            show l.distance * 111 < 111/50
            linarith
          · have := h1.2.1
            show (0 : ℚ) < f.altitude - l.altitude
            linarith
      · rw [if_neg h1] at hev
        exact absurd hev (by simp)
    · intro tv htv
      rw [analyzeTrack_snd f l rest hl] at htv
      by_cases h1 : l.distance > f.distance ∧ l.altitude > f.altitude ∧
          f.distance < 2/100 ∧ f.altitude < 500
      · rw [if_pos h1] at htv
        obtain rfl := (Option.some_inj.mp htv).symm
        refine ⟨h1.2.2.2, ?_, ?_, h3⟩
        · have := h1.2.2.1
          show f.distance * 111 < 111/50
          linarith
        · have := h1.2.1
          show (0 : ℚ) < l.altitude - f.altitude
          linarith
      · rw [if_neg h1] at htv
        exact absurd htv (by simp)

/-- Witness for C10: the invariant instantiated on the example-1 landing. -/
theorem event_invariants_witness :
    exEvent1.final_altitude < 500 ∧ exEvent1.final_distance_km < 111/50 ∧
      0 < exEvent1.altitude_drop ∧ 3 ≤ exEvent1.detections :=
  (event_invariants exTrack1 (by decide)).1 exEvent1 exTrack1_fst

/-- One raw detection row consumed by `track_termination_analysis.py`
(fields read at lines 30-31 and 49-56): `baroaltitude_m` may be null. -/
structure Sample where
  timestamp : String
  icao24 : String
  callsign : String
  latitude : ℚ
  longitude : ℚ
  baroaltitude_m : Option ℚ
  deriving DecidableEq, Repr

/-- Python truthiness of the optional altitude field (`if d['baroaltitude_m']:`,
source line 50): the test passes exactly when the field is neither None nor 0. -/
def truthy : Option ℚ → Bool
  | none => false
  | some a => decide (a ≠ 0)

/-- The in-place `detections.sort(key=lambda x: x['timestamp'])` (source line 46). -/
def sortByTime (detections : List Sample) : List Sample :=
  detections.mergeSort (fun a b => decide (a.timestamp ≤ b.timestamp))

/-- The samples surviving the altitude filter, in time order (loop at
source lines 49-56). -/
def retainedSamples (detections : List Sample) : List Sample :=
  (sortByTime detections).filter (fun d => truthy d.baroaltitude_m)

/-- Track-point construction from a retained sample (source lines 51-56).
The source's `distance_to_airport` computes a Euclidean square root in
degrees, which has no exact rational value, so the pipeline is
parameterized by the distance function `dist`; every property proved about
the builder holds for every such function. -/
def toTrackPoint (dist : ℚ → ℚ → ℚ) (d : Sample) : TrackPoint :=
  { time := d.timestamp
    distance := dist d.latitude d.longitude
    altitude := d.baroaltitude_m.getD 0
    callsign := d.callsign }

/-- The per-group track built at source lines 48-56. -/
def buildTrack (dist : ℚ → ℚ → ℚ) (detections : List Sample) : List TrackPoint :=
  (retainedSamples detections).map (toTrackPoint dist)

/-- One `(icao24, date)` group of the analysis loop (source lines 39-122):
the `len(detections) < 3` guard, the sort-and-filter, the `len(track) < 3`
guard and the classifier. -/
def analyzeGroup (dist : ℚ → ℚ → ℚ) (detections : List Sample) :
    Option LandingEvent × Option TakeoffEvent :=
  if detections.length < 3 then (none, none)
  else
    let track := buildTrack dist detections
    if track.length < 3 then (none, none)
    else analyzeTrack track

lemma truthy_iff (o : Option ℚ) : truthy o = true ↔ ∃ a, o = some a ∧ a ≠ 0 := by
  cases o <;> simp [truthy]

lemma analyzeTrack_fst_callsign (p : TrackPoint) (rest : List TrackPoint)
    (ev : LandingEvent) (h : (analyzeTrack (p :: rest)).1 = some ev) :
    ev.callsign = p.callsign := by
  obtain ⟨l, hl⟩ : ∃ l, (p :: rest).getLast? = some l := by
    cases hx : (p :: rest).getLast? with
    | none => simp [List.getLast?_eq_none_iff] at hx
    | some x => exact ⟨x, rfl⟩
  rw [analyzeTrack_fst p l rest hl] at h
  by_cases h1 : p.distance > l.distance ∧ p.altitude > l.altitude ∧
      l.distance < 2/100 ∧ l.altitude < 500
  · rw [if_pos h1] at h
    by_cases h2 : continues_past (p :: rest) = true
    · rw [if_pos h2] at h
      exact absurd h (by simp)
    · rw [if_neg h2] at h
      obtain rfl := (Option.some_inj.mp h).symm
      rfl
  · rw [if_neg h1] at h
    exact absurd h (by simp)

lemma analyzeTrack_snd_callsign (p : TrackPoint) (rest : List TrackPoint)
    (tv : TakeoffEvent) (h : (analyzeTrack (p :: rest)).2 = some tv) :
    tv.callsign = p.callsign := by
  obtain ⟨l, hl⟩ : ∃ l, (p :: rest).getLast? = some l := by
    cases hx : (p :: rest).getLast? with
    | none => simp [List.getLast?_eq_none_iff] at hx
    | some x => exact ⟨x, rfl⟩
  rw [analyzeTrack_snd p l rest hl] at h
  by_cases h1 : l.distance > p.distance ∧ l.altitude > p.altitude ∧
      p.distance < 2/100 ∧ p.altitude < 500
  · rw [if_pos h1] at h
    obtain rfl := (Option.some_inj.mp h).symm
    rfl
  · rw [if_neg h1] at h
    exact absurd h (by simp)

/-- A sample whose altitude field is present but equals zero. -/
def zeroAltSample : Sample :=
  { timestamp := "2025-07-01T00:00:00Z", icao24 := "a1b2c3", callsign := "TEST1",
    latitude := 26, longitude := -81, baroaltitude_m := some 0 }

/-- C4 counterexample: a sample whose altitude field is NOT null is
nevertheless dropped by the filter, because `if d['baroaltitude_m']:` is
Python truthiness and a zero altitude is falsy — refuting the claim that
exactly the null-altitude samples are dropped. -/
theorem zero_altitude_dropped :
    zeroAltSample.baroaltitude_m ≠ none ∧ retainedSamples [zeroAltSample] = [] := by
  constructor
  · simp [zeroAltSample]
  · simp [retainedSamples, sortByTime, List.mergeSort_singleton, truthy, zeroAltSample]

/-- C4 amended: within a per-aircraft per-day group, exactly the samples
whose altitude field is null OR zero are dropped (Python truthiness) and
all others are retained; if fewer than 3 retained samples remain, the
group yields no events; and the callsign recorded in any emitted event is
the callsign of the first retained sample. -/
theorem track_builder_filter (dist : ℚ → ℚ → ℚ) (g : List Sample) :
    (∀ d, d ∈ retainedSamples g ↔
      (d ∈ g ∧ ∃ a, d.baroaltitude_m = some a ∧ a ≠ 0)) ∧
    ((retainedSamples g).length < 3 → analyzeGroup dist g = (none, none)) ∧
    (∀ ev, (analyzeGroup dist g).1 = some ev →
      ∃ d₀, (retainedSamples g).head? = some d₀ ∧ ev.callsign = d₀.callsign) ∧
    (∀ tv, (analyzeGroup dist g).2 = some tv →
      ∃ d₀, (retainedSamples g).head? = some d₀ ∧ tv.callsign = d₀.callsign) := by
  have hlen : (buildTrack dist g).length = (retainedSamples g).length := by
    rw [buildTrack, List.length_map]
  refine ⟨?_, ?_, ?_, ?_⟩
  · intro d
    simp [retainedSamples, List.mem_filter, sortByTime, List.mem_mergeSort, truthy_iff]
  · intro hsmall
    simp only [analyzeGroup]
    split_ifs with hg htr
    · rfl
    · rfl
    · exact absurd (hlen ▸ hsmall) htr
  · intro ev hev
    simp only [analyzeGroup] at hev
    split_ifs at hev with hg htr
    cases hr : retainedSamples g with
      | nil =>
        rw [buildTrack, hr] at hev
        exact absurd hev (by simp [analyzeTrack])
      | cons d0 ds =>
        refine ⟨d0, rfl, ?_⟩
        rw [buildTrack, hr, List.map_cons] at hev
        exact analyzeTrack_fst_callsign _ _ _ hev
  · intro tv htv
    simp only [analyzeGroup] at htv
    split_ifs at htv with hg htr
    cases hr : retainedSamples g with
      | nil =>
        rw [buildTrack, hr] at htv
        exact absurd htv (by simp [analyzeTrack])
      | cons d0 ds =>
        refine ⟨d0, rfl, ?_⟩
        rw [buildTrack, hr, List.map_cons] at htv
        exact analyzeTrack_snd_callsign _ _ _ htv

/-- Witness for C4 (amended): the no-event guard applied to a concrete
one-sample group. -/
theorem track_builder_filter_witness :
    analyzeGroup (fun _ _ => 0) [zeroAltSample] = (none, none) :=
  (track_builder_filter (fun _ _ => 0) [zeroAltSample]).2.1 (by
    simp [retainedSamples, sortByTime, List.mergeSort_singleton, truthy, zeroAltSample])

/-- Ground-proximity status strings assigned in `parse_aircraft_data`
(`monitor_dade_collier.py` lines 111-119). -/
inductive Status
  | ON_GROUND
  | VERY_LOW
  | LOW_ALTITUDE
  | CRUISING
  deriving DecidableEq, Repr

/-- Altitude threshold `LANDING_ALTITUDE` (source line 13). -/
def LANDING_ALTITUDE : ℚ := 500

/-- Altitude threshold `GROUND_ALTITUDE` (source line 14). -/
def GROUND_ALTITUDE : ℚ := 100

/-- Watch-list callsign entries (source line 21). -/
def WATCH_CALLSIGNS : List String := ["RPN", "GXA"]

/-- Military ICAO prefix entries (source line 24). -/
def MILITARY_PREFIXES : List String := ["AE"]

/-- The activity classification of `parse_aircraft_data` (lines 111-119).
The elif guards are Python truthiness tests
`aircraft['altitude_m'] and aircraft['altitude_m'] < ...`, so a null or
zero altitude fails them. -/
def classifyStatus (on_ground : Bool) (altitude_m : Option ℚ) : Status :=
  if on_ground then Status.ON_GROUND
  else
    match altitude_m with
    | some a =>
      if a ≠ 0 ∧ a < GROUND_ALTITUDE then Status.VERY_LOW
      else if a ≠ 0 ∧ a < LANDING_ALTITUDE then Status.LOW_ALTITUDE
      else Status.CRUISING
    | none => Status.CRUISING

/-- The status assignment as the specification words it, for a present
altitude: `on_ground` gives ON_GROUND; else altitude below 100 gives
VERY_LOW; else altitude below 500 gives LOW_ALTITUDE; else CRUISING.
Stated from the spec for comparison with `classifyStatus`. -/
def statusPerSpec (on_ground : Bool) (altitude_m : ℚ) : Status :=
  if on_ground then Status.ON_GROUND
  else if altitude_m < 100 then Status.VERY_LOW
  else if altitude_m < 500 then Status.LOW_ALTITUDE
  else Status.CRUISING

/-- C5 counterexample: an airborne sample with altitude exactly 0 m is
classified CRUISING by the code (the truthiness guard rejects 0), while
the claimed rule assigns VERY_LOW since 0 < 100. -/
theorem zero_altitude_status :
    classifyStatus false (some 0) = Status.CRUISING ∧
      statusPerSpec false 0 = Status.VERY_LOW ∧
      Status.CRUISING ≠ Status.VERY_LOW := by
  refine ⟨?_, ?_, by simp⟩
  · simp [classifyStatus]
  · norm_num [statusPerSpec]

/-- C5 amended: the status assigned by the code is ON_GROUND iff the
ground flag is set; VERY_LOW iff airborne with a non-null, non-zero
altitude below 100 m; LOW_ALTITUDE iff airborne with a non-null, non-zero
altitude in [100, 500); and CRUISING otherwise — in particular an
airborne sample with a null or zero altitude is CRUISING. -/
theorem classifyStatus_characterization (og : Bool) (alt : Option ℚ) :
    (classifyStatus og alt = Status.ON_GROUND ↔ og = true) ∧
    (classifyStatus og alt = Status.VERY_LOW ↔
      (og = false ∧ ∃ a, alt = some a ∧ a ≠ 0 ∧ a < 100)) ∧
    (classifyStatus og alt = Status.LOW_ALTITUDE ↔
      (og = false ∧ ∃ a, alt = some a ∧ a ≠ 0 ∧ 100 ≤ a ∧ a < 500)) ∧
    (classifyStatus og alt = Status.CRUISING ↔
      (og = false ∧ (alt = none ∨ ∃ a, alt = some a ∧ (a = 0 ∨ 500 ≤ a)))) := by
  cases og with
  | true =>
    simp [classifyStatus]
  | false =>
    cases alt with
    | none =>
      simp [classifyStatus]
    | some a =>
      by_cases h0 : a = 0
      · subst h0
        simp [classifyStatus]
      · by_cases h1 : a < 100
        · have hn5 : ¬ (500 : ℚ) ≤ a := by linarith
          have hn1 : ¬ (100 : ℚ) ≤ a := not_le.mpr h1
          simp [classifyStatus, GROUND_ALTITUDE, h0, h1, hn5, hn1]
        · by_cases h2 : a < 500
          · have hge : (100 : ℚ) ≤ a := le_of_not_lt h1
            have hn5 : ¬ (500 : ℚ) ≤ a := not_le.mpr h2
            simp [classifyStatus, GROUND_ALTITUDE, LANDING_ALTITUDE, h0, h1, h2, hge, hn5]
          · have hge : (500 : ℚ) ≤ a := le_of_not_lt h2
            have hn1 : ¬ a < (100 : ℚ) := h1
            simp [classifyStatus, GROUND_ALTITUDE, LANDING_ALTITUDE, h0, h1, h2, hge]

/-- Python `str.upper()` over the underlying characters (self-contained so
that it evaluates in the kernel; the callsigns involved are ASCII). -/
def pyUpper (s : String) : String := ⟨s.data.map Char.toUpper⟩

/-- Python `str.startswith(p)` over the underlying characters. -/
def pyStartsWith (s p : String) : Bool := List.isPrefixOf p.data s.data

/-- The alert-rule engine `check_alert_conditions` (source lines 35-63),
with the configured watch list, military prefixes and the after-hours flag
(read from the wall clock by `is_after_hours` in the source) as parameters;
the source instantiates them with `WATCH_CALLSIGNS`, `MILITARY_PREFIXES`
and the current-time check.  Rules are evaluated unconditionally, in
source order, and append to one cumulative list. -/
def check_alert_conditions (watchCallsigns militaryPrefixes : List String)
    (afterHours : Bool) (callsign icao24 : String) (status : Status) :
    List String :=
  let cs := pyUpper callsign
  let watchTags := watchCallsigns.filterMap fun w =>
    if pyStartsWith cs w = true then some ("WATCH_CALLSIGN:" ++ w) else none
  let noCallsignTags :=
    if cs = "" ∨ cs = "N/A" ∨ cs = "UNKNOWN" then ["NO_CALLSIGN"] else []
  let icao := pyUpper icao24
  let militaryTags := militaryPrefixes.filterMap fun p =>
    if pyStartsWith icao p = true then some "MILITARY" else none
  let afterHoursTags := if afterHours = true then ["AFTER_HOURS"] else []
  let lowAltTags :=
    if status = Status.LOW_ALTITUDE ∨ status = Status.VERY_LOW ∨
        status = Status.ON_GROUND then ["LOW_ALTITUDE"]
    else []
  watchTags ++ noCallsignTags ++ militaryTags ++ afterHoursTags ++ lowAltTags

/-- The `is_alert` flag set in `parse_aircraft_data` (source line 124):
`len(alerts) > 0`. -/
def is_alert (alerts : List String) : Bool := decide (0 < alerts.length)

/-- C8: alert rules are evaluated independently and tags accumulate: a
sample whose callsign prefix-matches two distinct configured watch-list
entries receives both `WATCH_CALLSIGN:` tags, which are distinct strings;
and a sample's `is_alert` flag is true exactly when its tag list is
non-empty. -/
theorem watch_tags_accumulate (ws mp : List String) (ah : Bool)
    (cs icao : String) (st : Status) (w1 w2 : String)
    (h1 : w1 ∈ ws) (h2 : w2 ∈ ws) (hne : w1 ≠ w2)
    (hs1 : pyStartsWith (pyUpper cs) w1 = true)
    (hs2 : pyStartsWith (pyUpper cs) w2 = true) :
    ("WATCH_CALLSIGN:" ++ w1) ∈ check_alert_conditions ws mp ah cs icao st ∧
    ("WATCH_CALLSIGN:" ++ w2) ∈ check_alert_conditions ws mp ah cs icao st ∧
    ("WATCH_CALLSIGN:" ++ w1) ≠ ("WATCH_CALLSIGN:" ++ w2) ∧
    (∀ (ws2 mp2 : List String) (ah2 : Bool) (cs2 icao2 : String) (st2 : Status),
      is_alert (check_alert_conditions ws2 mp2 ah2 cs2 icao2 st2) = true ↔
        check_alert_conditions ws2 mp2 ah2 cs2 icao2 st2 ≠ []) := by
  refine ⟨?_, ?_, ?_, ?_⟩
  · simp only [check_alert_conditions]
    apply List.mem_append_left
    apply List.mem_append_left
    apply List.mem_append_left
    apply List.mem_append_left
    exact List.mem_filterMap.mpr ⟨w1, h1, by rw [if_pos hs1]⟩
  · simp only [check_alert_conditions]
    apply List.mem_append_left
    apply List.mem_append_left
    apply List.mem_append_left
    apply List.mem_append_left
    exact List.mem_filterMap.mpr ⟨w2, h2, by rw [if_pos hs2]⟩
  · intro heq
    apply hne
    have hd := congrArg String.data heq
    rw [String.data_append, String.data_append] at hd
    exact String.ext (List.append_cancel_left hd)
  · intro ws2 mp2 ah2 cs2 icao2 st2
    simp [is_alert, List.length_pos]

/-- Witness for C8: a callsign matching the two watch entries RP and RPN. -/
theorem watch_tags_accumulate_witness :
    ("WATCH_CALLSIGN:" ++ "RP") ∈
      check_alert_conditions ["RP", "RPN"] MILITARY_PREFIXES false "rpn123" "a1b2c3"
        Status.CRUISING ∧
    ("WATCH_CALLSIGN:" ++ "RPN") ∈
      check_alert_conditions ["RP", "RPN"] MILITARY_PREFIXES false "rpn123" "a1b2c3"
        Status.CRUISING ∧
    ("WATCH_CALLSIGN:" ++ "RP") ≠ ("WATCH_CALLSIGN:" ++ "RPN") ∧
    (∀ (ws2 mp2 : List String) (ah2 : Bool) (cs2 icao2 : String) (st2 : Status),
      is_alert (check_alert_conditions ws2 mp2 ah2 cs2 icao2 st2) = true ↔
        check_alert_conditions ws2 mp2 ah2 cs2 icao2 st2 ≠ []) :=
  watch_tags_accumulate ["RP", "RPN"] MILITARY_PREFIXES false "rpn123" "a1b2c3"
    Status.CRUISING "RP" "RPN" (by decide) (by decide) (by decide) (by decide)
    (by decide)

/-- Pure model of `save_detections` (source lines 130-148): the monthly
log file either does not exist (`none`) or holds a previously stored
array; the result is the array written back by the read-modify-write. -/
def save_detections {α : Type} (existing : Option (List α))
    (aircraft_list : List α) : List α :=
  let data :=
    match existing with
    | some d => d
    | none => []
  data ++ aircraft_list

/-- C9: when the monthly detection log file does not exist, saving treats
the existing state as an empty array rather than raising an error, and in
every case the rewritten contents equal the previously stored array
extended with the new detections in their given order. -/
theorem save_detections_spec {α : Type} (new : List α) :
    save_detections none new = new ∧
    (∀ stored : List α, save_detections (some stored) new = stored ++ new) :=
  ⟨by simp [save_detections], fun _ => rfl⟩

/-- Witness for C9: the missing-file case on a concrete list. -/
theorem save_detections_spec_witness :
    save_detections none [1, 2, 3] = [1, 2, 3] :=
  (save_detections_spec [1, 2, 3]).1
